import Mathlib

/-!
Shallow embedding of the timecode engine in `src/main.rs` of the
`windows_media_timecode` repository, together with theorems settling the
spec claims about it.

Machine integers are modelled as `Int`/`Nat` with explicit wrapping:
`i32` arithmetic and `as i32` casts wrap two's-complement style
(release-mode Rust semantics), `as u8` keeps the low 8 bits, and Rust's
truncated `i32` division/remainder are `Int.tdiv`/`Int.tmod`.
Fallible or panicking code paths are modelled with `Option` (`none` =
panic / aborted task).
-/

namespace WMT

/-- Two's-complement wrap of an integer into the `i32` range
`[-2^31, 2^31)`; models Rust release-mode wrapping `i32` arithmetic and
`as i32` narrowing casts. -/
def i32wrap (x : Int) : Int := (x + 2147483648) % 4294967296 - 2147483648

/-- Rust `as u8` narrowing cast (low 8 bits of the two's-complement
representation). -/
def asU8 (x : Int) : Nat := (x % 256).toNat

/-- The low 32 bits of an `i32` value, viewed unsigned; used to model Rust
bitwise `&` / `>>` on `i32`, which only ever inspect these bits in the
source. -/
def toU32 (x : Int) : Nat := (x % 4294967296).toNat

/-- `hours` field computed by `send_position` / `send_mtc_quarter_frame`
(`src/main.rs` lines 19 and 66): `position / 3600000` in truncated `i32`
division. -/
def hoursOf (position : Int) : Int := position.tdiv 3600000

/-- `minutes` field (`src/main.rs` lines 20-22 and 67-69). -/
def minutesOf (position : Int) : Int := (position.tmod 3600000).tdiv 60000

/-- `seconds` field (`src/main.rs` lines 23-25 and 70-72). -/
def secondsOf (position : Int) : Int :=
  ((position.tmod 3600000).tmod 60000).tdiv 1000

/-- `frames` field (`src/main.rs` lines 26-28 and 73-75):
`remaining_milliseconds * 25 / 1000`. -/
def framesOf (position : Int) : Int :=
  ((((position.tmod 3600000).tmod 60000).tmod 1000) * 25).tdiv 1000

/-- The 10-byte MTC full-frame SysEx message assembled and sent by
`send_position` (`src/main.rs` lines 30-58): each field is narrowed with an
`as u8` cast and the rate code `0b01` is OR-ed into bits 5-6 of the hours
byte. -/
def send_position (position : Int) : List Nat :=
  [0xF0, 0x7F, 0x7F, 0x01, 0x01,
   (0b01 <<< 5) ||| asU8 (hoursOf position),
   asU8 (minutesOf position),
   asU8 (secondsOf position),
   asU8 (framesOf position),
   0xF7]

theorem natCast_tdiv (m n : Nat) : (m : Int).tdiv n = ((m / n : Nat) : Int) := rfl

theorem natCast_tmod (m n : Nat) : (m : Int).tmod n = ((m % n : Nat) : Int) := rfl

theorem hoursOf_cast (n : Nat) : hoursOf n = ((n / 3600000 : Nat) : Int) := rfl

theorem minutesOf_cast (n : Nat) :
    minutesOf n = ((n % 3600000 / 60000 : Nat) : Int) := rfl

theorem secondsOf_cast (n : Nat) :
    secondsOf n = ((n % 3600000 % 60000 / 1000 : Nat) : Int) := rfl

theorem framesOf_cast (n : Nat) :
    framesOf n = ((n % 3600000 % 60000 % 1000 * 25 / 1000 : Nat) : Int) := rfl

theorem asU8_cast (n : Nat) : asU8 n = n % 256 := by
  unfold asU8
  omega

theorem asU8_lt (x : Int) : asU8 x < 256 := by
  have h1 : 0 ≤ x % 256 := Int.emod_nonneg x (by decide)
  have h2 : x % 256 < 256 := Int.emod_lt_of_pos x (by decide)
  unfold asU8
  omega

theorem rate_lor_lt (m : Nat) (hm : m < 256) : 32 ||| m < 256 := by
  have h : Nat.bitwise or 32 m < 2 ^ 8 := Nat.bitwise_lt (by decide) (by omega)
  have e : (32 : Nat) ||| m = Nat.bitwise or 32 m := rfl
  rw [e]
  omega

theorem minutesNat_lt (n : Nat) : n % 3600000 / 60000 < 60 := by omega

theorem secondsNat_lt (n : Nat) : n % 3600000 % 60000 / 1000 < 60 := by omega

theorem framesNat_lt (n : Nat) : n % 3600000 % 60000 % 1000 * 25 / 1000 < 25 := by
  omega

/-- Claim C1 (counterexample). The claim states that for every non-negative
`positionMs` the sixth byte of the full-frame message is `(0b01<<5)|hours`
with `hours = positionMs/3600000` un-narrowed. At `positionMs = 921600000`
(256 hours) the code first narrows `hours` with an `as u8` cast, so the
byte actually sent is `0x20`, while the claimed formula yields
`0x20 ||| 256 = 288`; the claim as stated is false at this input. -/
theorem C1_claim_counterexample :
    send_position 921600000 ≠
      [0xF0, 0x7F, 0x7F, 0x01, 0x01,
       (0b01 <<< 5) ||| (hoursOf 921600000).toNat,
       (minutesOf 921600000).toNat,
       (secondsOf 921600000).toNat,
       (framesOf 921600000).toNat,
       0xF7] := by decide

/-- Claim C1 (amended). For every non-negative `positionMs`,
`send_position` sends exactly the 10-byte SysEx message
`[0xF0, 0x7F, 0x7F, 0x01, 0x01, (0b01<<5)|(hours % 256), minutes, seconds,
frames, 0xF7]`, where `hours = positionMs/3600000`,
`minutes = (positionMs%3600000)/60000`, `seconds = (positionMs%60000)/1000`
and `frames = (positionMs%1000)*25/1000`, all with truncated integer
division and the hours field narrowed to 8 bits by the `as u8` cast
(minutes, seconds and frames are below 256 for every non-negative
position, so only the hours field is affected by the narrowing). -/
theorem C1_fullframe_bytes (position : Int) (hpos : 0 ≤ position) :
    send_position position =
      [0xF0, 0x7F, 0x7F, 0x01, 0x01,
       (0b01 <<< 5) ||| ((hoursOf position).toNat % 256),
       (minutesOf position).toNat,
       (secondsOf position).toNat,
       (framesOf position).toNat,
       0xF7] := by
  obtain ⟨n, rfl⟩ := Int.eq_ofNat_of_zero_le hpos
  rw [send_position, hoursOf_cast, minutesOf_cast, secondsOf_cast, framesOf_cast]
  rw [asU8_cast, asU8_cast, asU8_cast, asU8_cast]
  rw [Int.toNat_natCast, Int.toNat_natCast, Int.toNat_natCast, Int.toNat_natCast]
  rw [Nat.mod_eq_of_lt (lt_trans (minutesNat_lt n) (by norm_num)),
      Nat.mod_eq_of_lt (lt_trans (secondsNat_lt n) (by norm_num)),
      Nat.mod_eq_of_lt (lt_trans (framesNat_lt n) (by norm_num))]

/-- Witness for C1: at `positionMs = 0` the message is exactly
`F0 7F 7F 01 01 20 00 00 00 F7`. -/
theorem C1_fullframe_bytes_witness :
    send_position 0 =
      [0xF0, 0x7F, 0x7F, 0x01, 0x01, 0x20, 0x00, 0x00, 0x00, 0xF7] :=
  (C1_fullframe_bytes 0 (by decide)).trans (by decide)

/-- Claim C9: the full-frame encoder performs no range validation. For
every position (of any sign) it produces a 10-byte message whose entries
all fit in 8 bits, because every field is narrowed by a truncating `as u8`
cast; in particular it never rejects or saturates, and for `hours ≥ 32`
the combined rate/hours byte silently wraps: position `115200000`
(32 hours) produces the very same message as position `0`. -/
theorem C9_no_range_validation :
    (∀ position : Int, (send_position position).length = 10 ∧
        (send_position position).all (fun b => b < 256) = true) ∧
      send_position 115200000 = send_position 0 := by
  constructor
  · intro position
    refine ⟨rfl, ?_⟩
    have h5 : (0b01 <<< 5) ||| asU8 (hoursOf position) < 256 :=
      rate_lor_lt _ (asU8_lt _)
    simp only [send_position, List.all_cons, List.all_nil, Bool.and_eq_true,
      decide_eq_true_eq]
    refine ⟨by norm_num, by norm_num, by norm_num, by norm_num, by norm_num,
      h5, asU8_lt _, asU8_lt _, asU8_lt _, by norm_num, trivial⟩
  · decide

/-- The eight quarter-frame payload bytes computed by
`send_mtc_quarter_frame` (`src/main.rs` lines 77-107), in message order:
frames low nibble; frames high bit | 0x10; seconds low | 0x20; seconds
high | 0x30; minutes low | 0x40; minutes high | 0x50; hours low | 0x60;
hours high bit and rate bits | 0x70. -/
def qfPayloads (position : Int) : List Nat :=
  let frames_low_nibble := toU32 (framesOf position) &&& 0x0F
  let frames_high_nibble := (toU32 (framesOf position) >>> 4) &&& 0x01
  let seconds_low_nibble := toU32 (secondsOf position) &&& 0x0F
  let seconds_high_nibble := (toU32 (secondsOf position) >>> 4) &&& 0x03
  let minutes_low_nibble := toU32 (minutesOf position) &&& 0x0F
  let minutes_high_nibble := (toU32 (minutesOf position) >>> 4) &&& 0x03
  let hours_low_nibble := toU32 (hoursOf position) &&& 0x0F
  let rate := 0b01
  let hours_high_nibble := ((toU32 (hoursOf position) >>> 4) &&& 0x01) ||| (rate <<< 1)
  [frames_low_nibble,
   frames_high_nibble ||| 0x10,
   seconds_low_nibble ||| 0x20,
   seconds_high_nibble ||| 0x30,
   minutes_low_nibble ||| 0x40,
   minutes_high_nibble ||| 0x50,
   hours_low_nibble ||| 0x60,
   hours_high_nibble ||| 0x70]

/-- The single two-byte message `[0xF1, payload]` sent by
`send_mtc_quarter_frame` for a given `message_index` (`src/main.rs` lines
109-118); `none` models the `unwrap` panic when `message_index ≥ 8`. -/
def send_mtc_quarter_frame (position : Int) (message_index : Nat) :
    Option (List Nat) :=
  ((qfPayloads position).get? message_index).map (fun p => [0xF1, p])

/-- The payload byte (second byte) of the quarter-frame message at a given
index, as produced by `send_mtc_quarter_frame`. -/
def qfPayloadAt (position : Int) (i : Nat) : Nat :=
  ((send_mtc_quarter_frame position i).getD []).getD 1 0

/-- Reassembly of the `(hours, minutes, seconds, frames)` quadruple from
the eight quarter-frame payloads, per the documented MTC bit layout (low
nibble from the even messages, high bits from the odd ones, selector bits
masked off). This definition follows the claim's words; it is the
receiver-side procedure the round-trip claim quantifies over. -/
def reassembleQuarterFrames (position : Int) : Int × Int × Int × Int :=
  let p0 := qfPayloadAt position 0
  let p1 := qfPayloadAt position 1
  let p2 := qfPayloadAt position 2
  let p3 := qfPayloadAt position 3
  let p4 := qfPayloadAt position 4
  let p5 := qfPayloadAt position 5
  let p6 := qfPayloadAt position 6
  let p7 := qfPayloadAt position 7
  (((((p7 &&& 0x01) <<< 4) ||| (p6 &&& 0x0F) : Nat) : Int),
   ((((p5 &&& 0x03) <<< 4) ||| (p4 &&& 0x0F) : Nat) : Int),
   ((((p3 &&& 0x03) <<< 4) ||| (p2 &&& 0x0F) : Nat) : Int),
   ((((p1 &&& 0x01) <<< 4) ||| (p0 &&& 0x0F) : Nat) : Int))

theorem hours_nibble_roundtrip : ∀ h < 32,
    (((((((h >>> 4) &&& 0x01) ||| (0b01 <<< 1)) ||| 0x70) &&& 0x01) <<< 4) |||
      (((h &&& 0x0F) ||| 0x60) &&& 0x0F)) = h := by decide

theorem minutes_nibble_roundtrip : ∀ m < 60,
    ((((((m >>> 4) &&& 0x03) ||| 0x50) &&& 0x03) <<< 4) |||
      (((m &&& 0x0F) ||| 0x40) &&& 0x0F)) = m := by decide

theorem seconds_nibble_roundtrip : ∀ s < 60,
    ((((((s >>> 4) &&& 0x03) ||| 0x30) &&& 0x03) <<< 4) |||
      (((s &&& 0x0F) ||| 0x20) &&& 0x0F)) = s := by decide

theorem frames_nibble_roundtrip : ∀ f < 25,
    ((((((f >>> 4) &&& 0x01) ||| 0x10) &&& 0x01) <<< 4) |||
      ((f &&& 0x0F) &&& 0x0F)) = f := by decide

theorem toU32_cast_lt (n : Nat) (h : n < 4294967296) : toU32 n = n := by
  unfold toU32
  omega

/-- Claim C2 (counterexample). The claim asserts the quarter-frame
round-trip for every `positionMs`; it fails at `positionMs = 115200000`
(exactly 32 hours): the hours field only receives 4 low-nibble bits plus a
single high bit in the quarter-frame stream, so `hours = 32` reassembles
as `0`. -/
theorem C2_claim_counterexample :
    reassembleQuarterFrames 115200000 ≠
      (hoursOf 115200000, minutesOf 115200000, secondsOf 115200000,
        framesOf 115200000) := by decide

/-- Claim C2 (amended). For every `positionMs` in `[0, 32*3600000)` (hours
below 32, the largest value the 5 hours bits of the quarter-frame stream
can carry), the 8 messages produced by `send_mtc_quarter_frame` for
indices 0-7 each have the shape `[0xF1, payload]`, and reassembling their
nibble payloads per the documented bit layout reconstructs exactly the
`(hours, minutes, seconds, frames)` quadruple of the decomposition. -/
theorem C2_quarter_frame_roundtrip (position : Int) (h0 : 0 ≤ position)
    (h1 : position < 115200000) :
    (∀ i, i < 8 → ∃ p, send_mtc_quarter_frame position i = some [0xF1, p]) ∧
    reassembleQuarterFrames position =
      (hoursOf position, minutesOf position, secondsOf position,
        framesOf position) := by
  obtain ⟨n, rfl⟩ := Int.eq_ofNat_of_zero_le h0
  have hn : n < 115200000 := by exact_mod_cast h1
  constructor
  · intro i hi
    have hlen : (qfPayloads (n : Int)).length = 8 := rfl
    have hilt : i < (qfPayloads (n : Int)).length := by omega
    refine ⟨(qfPayloads (n : Int)).get ⟨i, hilt⟩, ?_⟩
    rw [send_mtc_quarter_frame, List.get?_eq_get hilt]
    rfl
  · have hh : hoursOf n = ((n / 3600000 : Nat) : Int) := hoursOf_cast n
    have hm : minutesOf n = ((n % 3600000 / 60000 : Nat) : Int) := minutesOf_cast n
    have hs : secondsOf n = ((n % 3600000 % 60000 / 1000 : Nat) : Int) := secondsOf_cast n
    have hf : framesOf n =
        ((n % 3600000 % 60000 % 1000 * 25 / 1000 : Nat) : Int) := framesOf_cast n
    have hhlt : n / 3600000 < 32 := by omega
    have hmlt : n % 3600000 / 60000 < 60 := minutesNat_lt n
    have hslt : n % 3600000 % 60000 / 1000 < 60 := secondsNat_lt n
    have hflt : n % 3600000 % 60000 % 1000 * 25 / 1000 < 25 := framesNat_lt n
    have t1 : toU32 ((n / 3600000 : Nat) : Int) = n / 3600000 :=
      toU32_cast_lt _ (by omega)
    have t2 : toU32 ((n % 3600000 / 60000 : Nat) : Int) = n % 3600000 / 60000 :=
      toU32_cast_lt _ (by omega)
    have t3 : toU32 ((n % 3600000 % 60000 / 1000 : Nat) : Int) =
        n % 3600000 % 60000 / 1000 := toU32_cast_lt _ (by omega)
    have t4 : toU32 ((n % 3600000 % 60000 % 1000 * 25 / 1000 : Nat) : Int) =
        n % 3600000 % 60000 % 1000 * 25 / 1000 := toU32_cast_lt _ (by omega)
    simp only [reassembleQuarterFrames, qfPayloadAt, send_mtc_quarter_frame,
      qfPayloads, hh, hm, hs, hf, t1, t2, t3, t4,
      List.get?, Option.map_some, Option.getD_some, List.getD, Prod.mk.injEq]
    refine ⟨?_, ?_, ?_, ?_⟩
    · exact_mod_cast hours_nibble_roundtrip _ hhlt
    · exact_mod_cast minutes_nibble_roundtrip _ hmlt
    · exact_mod_cast seconds_nibble_roundtrip _ hslt
    · exact_mod_cast frames_nibble_roundtrip _ hflt

/-- Witness for C2 at `positionMs = 3723456` (1 h, 2 min, 3 s, 11 frames). -/
theorem C2_quarter_frame_roundtrip_witness :
    (∀ i, i < 8 → ∃ p, send_mtc_quarter_frame 3723456 i = some [0xF1, p]) ∧
    reassembleQuarterFrames 3723456 =
      (hoursOf 3723456, minutesOf 3723456, secondsOf 3723456,
        framesOf 3723456) :=
  C2_quarter_frame_roundtrip 3723456 (by decide) (by decide)

/-- Claim C6: for all `positionMs` in `[0, 24*3600000)`, re-assembling the
decomposed fields as `hours*3600000 + minutes*60000 + seconds*1000 +
frames*40` lands within one frame duration (40 ms) of the original
position: the decomposition is lossy but bounded. -/
theorem C6_reassembly_bound (position : Int) (h0 : 0 ≤ position)
    (h1 : position < 86400000) :
    (hoursOf position * 3600000 + minutesOf position * 60000 +
      secondsOf position * 1000 + framesOf position * 40 - position).natAbs
      ≤ 40 := by
  obtain ⟨n, rfl⟩ := Int.eq_ofNat_of_zero_le h0
  rw [hoursOf_cast, minutesOf_cast, secondsOf_cast, framesOf_cast]
  omega

/-- Witness for C6 at `positionMs = 12345`: the reassembled value is
12320, within 40 ms of the original. -/
theorem C6_reassembly_bound_witness :
    (hoursOf 12345 * 3600000 + minutesOf 12345 * 60000 +
      secondsOf 12345 * 1000 + framesOf 12345 * 40 - 12345).natAbs ≤ 40 :=
  C6_reassembly_bound 12345 (by decide) (by decide)

/-- A serde_json number: a non-negative integer (stored as `u64`), a
negative integer (stored as `i64`), or a float. `as_i64` never succeeds on
a float regardless of its value, so no payload is needed for that case. -/
inductive JNumber where
  | posInt : Nat → JNumber
  | negInt : Int → JNumber
  | float : JNumber

/-- A serde_json value, as far as the configuration handling needs it. -/
inductive Json where
  | null : Json
  | bool : Bool → Json
  | num : JNumber → Json
  | str : String → Json
  | arr : List Json → Json
  | obj : List (String × Json) → Json

/-- serde_json `Number::as_i64`: the value when it is an integer
representable in `i64`, otherwise `None` (floats are always `None`). -/
def JNumber.as_i64 : JNumber → Option Int
  | .posInt n => if n ≤ 9223372036854775807 then some (n : Int) else none
  | .negInt i => some i
  | .float => none

/-- serde_json `Value::get(key)`: field lookup on an object, `None` on any
other value. -/
def Json.get : Json → String → Option Json
  | .obj fields, key => fields.lookup key
  | _, _ => none

/-- The `get(key).unwrap_or(Null)` idiom used throughout the source. -/
def Json.getOr (v : Json) (key : String) : Json := (v.get key).getD .null

/-- serde_json comparison `Value == &str`: true iff the value is a string
with exactly that content. -/
def Json.eqStr : Json → String → Bool
  | .str t, s => t == s
  | _, _ => false

/-- `get_song` (`src/main.rs` lines 121-146): the first entry of
`config.songs` whose `title` and `artist` fields both equal the given
strings; a missing or non-array `songs` key yields the empty list. The
source returns `Err("song not found")` on a miss and its only caller
immediately maps that back to `Null`, so the miss is modelled as `none`. -/
def get_song (songs_config : Json) (song_title song_artist : String) :
    Option Json :=
  let songs : List Json :=
    match songs_config.getOr "songs" with
    | .arr xs => xs
    | _ => []
  songs.find? (fun song =>
    (song.getOr "title").eqStr song_title &&
      (song.getOr "artist").eqStr song_artist)

/-- `get_song_offset` (`src/main.rs` lines 148-159): `timecodeOffset` read
from the entry; a number is converted with `as_i64().unwrap()` — `none`
models that panic when the number has no `i64` representation — and then
narrowed to `i32` with an `as` cast; any non-number (including an absent
key) yields 0. -/
def get_song_offset (song : Json) : Option Int :=
  match song.getOr "timecodeOffset" with
  | .num n => n.as_i64.map (fun i => i32wrap i)
  | _ => some 0

/-- The per-track offset state held in the `song_offset` and
`enabled_for_song` atomics. -/
structure OffsetState where
  songOffset : Int
  enabledForSong : Bool

/-- The Media-event handler (`src/main.rs` lines 390-424): look the track
up in the config; on a miss store offset 0 and clear `enabled_for_song`
only when `disable_songs_outside_config` is set, leaving it untouched
otherwise; on a hit store the entry's offset and set `enabled_for_song`.
`none` models the `get_song_offset(...).unwrap()` panic. -/
def onMediaUpdate (config : Json) (disable_songs_outside_config : Bool)
    (song_title song_artist : String) (st : OffsetState) :
    Option OffsetState :=
  match get_song config song_title song_artist with
  | none =>
      some { songOffset := 0,
             enabledForSong :=
               if disable_songs_outside_config then false
               else st.enabledForSong }
  | some song =>
      (get_song_offset song).map
        (fun offset => { songOffset := offset, enabledForSong := true })

/-- Claim C4: on a media-identity update, an exact `(title, artist)` match
stores the entry's resolved offset and enables emission; a miss stores
offset 0 and disables emission only when `disableSongsOutsideConfig` is
set, otherwise the enabled flag keeps its prior value; a miss never
raises an error (the handler always produces a successor state). The
match case assumes the entry's `timecodeOffset` resolves (is absent or an
integer), which is what the configuration schema guarantees. -/
theorem C4_track_matching (config : Json) (disable : Bool)
    (title artist : String) (st : OffsetState) :
    (∀ song, get_song config title artist = some song →
      ∀ offset, get_song_offset song = some offset →
        onMediaUpdate config disable title artist st =
          some { songOffset := offset, enabledForSong := true }) ∧
    (get_song config title artist = none →
      onMediaUpdate config disable title artist st =
        some { songOffset := 0,
               enabledForSong := if disable then false
                 else st.enabledForSong }) := by
  constructor
  · intro song hsong offset hoffset
    rw [onMediaUpdate, hsong]
    simp [hoffset]
  · intro hsong
    rw [onMediaUpdate, hsong]

/-- A sample configuration with one song entry, used by the C4 witness. -/
def sampleConfig : Json :=
  Json.obj [("songs", Json.arr [Json.obj
    [("title", Json.str "A"), ("artist", Json.str "B"),
     ("timecodeOffset", Json.num (JNumber.posInt 5000))]])]

/-- Witness for C4: with `sampleConfig`, the matching track "A"/"B" yields
offset 5000 and enables emission; the unmatched track "X"/"Y" with the
disable flag set yields offset 0 and disables emission. -/
theorem C4_track_matching_witness :
    onMediaUpdate sampleConfig false "A" "B"
        { songOffset := 0, enabledForSong := false } =
      some { songOffset := 5000, enabledForSong := true } ∧
    onMediaUpdate sampleConfig true "X" "Y"
        { songOffset := 0, enabledForSong := true } =
      some { songOffset := 0, enabledForSong := false } := by
  constructor
  · exact (C4_track_matching sampleConfig false "A" "B"
      { songOffset := 0, enabledForSong := false }).1 _ rfl 5000 rfl
  · exact (C4_track_matching sampleConfig true "X" "Y"
      { songOffset := 0, enabledForSong := true }).2 rfl

/-- Claim C10: `get_song_offset` returns 0 when `timecodeOffset` is absent
or not a JSON number; returns integer values truncated to 32 bits
(wrapping outside the `i32` range, as the trailing conjunct shows at
`2^31`); and panics (`none`) when the number has no `i64` representation,
as for any float such as `1.5`. -/
theorem C10_offset_parsing :
    (∀ song : Json,
      (∀ n : JNumber, song.getOr "timecodeOffset" ≠ Json.num n) →
        get_song_offset song = some 0) ∧
    (∀ song : Json, ∀ n : JNumber, ∀ i : Int,
      song.getOr "timecodeOffset" = Json.num n → n.as_i64 = some i →
        get_song_offset song = some (i32wrap i)) ∧
    (∀ song : Json, ∀ n : JNumber,
      song.getOr "timecodeOffset" = Json.num n → n.as_i64 = none →
        get_song_offset song = none) ∧
    get_song_offset (Json.obj [("timecodeOffset", Json.num JNumber.float)]) =
      none ∧
    get_song_offset (Json.obj [("timecodeOffset",
        Json.num (JNumber.posInt 2147483648))]) = some (-2147483648) := by
  refine ⟨?_, ?_, ?_, ?_, ?_⟩
  · intro song hna
    rw [get_song_offset]
    cases h : song.getOr "timecodeOffset" with
    | num n => exact absurd h (hna n)
    | null => rfl
    | bool b => rfl
    | str s => rfl
    | arr xs => rfl
    | obj fields => rfl
  · intro song n i hn hi
    rw [get_song_offset, hn]
    simp [hi]
  · intro song n hn hi
    rw [get_song_offset, hn]
    simp [hi]
  · rfl
  · decide

/-- Witness for C10: a configured integer offset of -5 is returned as -5. -/
theorem C10_offset_parsing_witness :
    get_song_offset (Json.obj
        [("timecodeOffset", Json.num (JNumber.negInt (-5)))]) = some (-5) := by
  have h := C10_offset_parsing.2.1
    (Json.obj [("timecodeOffset", Json.num (JNumber.negInt (-5)))])
    (JNumber.negInt (-5)) (-5) rfl rfl
  exact h.trans (by decide)

/-- The state read and written by one iteration of the emission task
(`src/main.rs` lines 296-339): the six shared atomics plus the task-local
`message_index` cursor. -/
structure LoopState where
  playPosition : Int
  songOffset : Int
  lastUpdate : Nat
  lastSentUpdate : Nat
  isPlaying : Bool
  enabledForSong : Bool
  messageIndex : Nat

/-- The position handed to the encoders on one tick (`src/main.rs` lines
297-325): `play_position + song_offset` in wrapping `i32` arithmetic; then,
if playing, plus `elapsed as i32` where
`elapsed = now.checked_sub(last_update).unwrap_or(0)` is the saturating
`u128` subtraction; finally forced to 0 when the song is not enabled. -/
def tickPosition (s : LoopState) (now : Nat) : Int :=
  let position := i32wrap (s.playPosition + s.songOffset)
  let elapsed : Nat := now - s.lastUpdate
  let position :=
    if s.isPlaying then i32wrap (position + i32wrap (elapsed : Int))
    else position
  if s.enabledForSong then position else 0

/-- The playback estimate of `src/main.rs` lines 310-321 in isolation: the
incoming base position, plus the saturating elapsed time (cast `as i32`)
when playing. -/
def estimatePosition (basePosition : Int) (lastUpdate : Nat)
    (isPlaying : Bool) (now : Nat) : Int :=
  let elapsed : Nat := now - lastUpdate
  if isPlaying then i32wrap (basePosition + i32wrap (elapsed : Int))
  else basePosition

theorem i32wrap_eq_self (x : Int) (h1 : -2147483648 ≤ x)
    (h2 : x < 2147483648) : i32wrap x = x := by
  unfold i32wrap
  omega

/-- One tick of the emission loop (`src/main.rs` lines 296-339), given the
sink's accept/reject behaviour `send`. The result is `none` when a
`send(...).unwrap()` panics (a rejected send, or a quarter-frame request
with `message_index ≥ 8`); otherwise it carries the full-frame message (if
one was emitted), the quarter-frame message (if one was emitted), and the
successor state. -/
def emissionTick (send : List Nat → Bool) (now : Nat) (s : LoopState) :
    Option (Option (List Nat) × Option (List Nat) × LoopState) :=
  let position := tickPosition s now
  let fullStep : Option (Option (List Nat) × LoopState) :=
    if s.lastUpdate = s.lastSentUpdate then
      some (none, s)
    else if send (send_position position) then
      some (some (send_position position),
        { s with lastSentUpdate := s.lastUpdate })
    else none
  match fullStep with
  | none => none
  | some (fullMsg, s1) =>
    if s.isPlaying && s.enabledForSong then
      match send_mtc_quarter_frame position s.messageIndex with
      | none => none
      | some msg =>
        if send msg then
          some (fullMsg, some msg,
            { s1 with messageIndex := (s1.messageIndex + 1) % 8 })
        else none
    else some (fullMsg, none,
      { s1 with messageIndex := (s1.messageIndex + 1) % 8 })

/-- The emission loop run over a list of tick instants; `none` as soon as
one tick panics (no further tick is executed). -/
def emissionLoop (send : List Nat → Bool) :
    List Nat → LoopState → Option LoopState
  | [], s => some s
  | now :: rest, s =>
    match emissionTick send now s with
    | none => none
    | some (_, _, s2) => emissionLoop send rest s2

/-- Claim C3 (counterexample). The claim states that on every tick the
position handed to the encoders equals
`basePositionMs + offsetMs + (isPlaying ? elapsed : 0)` when enabled. The
additions are wrapping `i32` additions, so at
`play_position = 2147483647, song_offset = 1` the code hands `-2147483648`
to the encoders, not the claimed `2147483648`. -/
theorem C3_claim_counterexample :
    tickPosition
      { playPosition := 2147483647, songOffset := 1, lastUpdate := 0,
        lastSentUpdate := 0, isPlaying := false, enabledForSong := true,
        messageIndex := 0 } 0 ≠ 2147483648 := by decide

/-- Claim C3 (amended). On every tick, provided the `i32` additions do not
overflow (the base+offset sum and the base+offset+elapsed sum lie in
`[-2^31, 2^31)` and the elapsed time is below `2^31` ms), the position
handed to the encoders is exactly
`if enabledForTrack then basePositionMs + offsetMs +
(if isPlaying then elapsed else 0) else 0`, where
`elapsed = now - lastUpdateTimestampMs` is the saturating subtraction:
a natural-number truncated difference that never goes negative and never
throws (`checked_sub(..).unwrap_or(0)` in the source). -/
theorem C3_tick_position (s : LoopState) (now : Nat)
    (h1 : -2147483648 ≤ s.playPosition + s.songOffset)
    (h2 : s.playPosition + s.songOffset < 2147483648)
    (h3 : (now - s.lastUpdate : Nat) < 2147483648)
    (h4 : s.playPosition + s.songOffset + ((now - s.lastUpdate : Nat) : Int) <
      2147483648) :
    tickPosition s now =
      if s.enabledForSong then
        s.playPosition + s.songOffset +
          (if s.isPlaying then ((now - s.lastUpdate : Nat) : Int) else 0)
      else 0 := by
  have w1 : i32wrap (s.playPosition + s.songOffset) =
      s.playPosition + s.songOffset := i32wrap_eq_self _ h1 h2
  have w2 : i32wrap ((now - s.lastUpdate : Nat) : Int) =
      ((now - s.lastUpdate : Nat) : Int) :=
    i32wrap_eq_self _ (by omega) (by omega)
  have w3 : i32wrap (s.playPosition + s.songOffset +
      ((now - s.lastUpdate : Nat) : Int)) =
      s.playPosition + s.songOffset + ((now - s.lastUpdate : Nat) : Int) :=
    i32wrap_eq_self _ (by omega) h4
  rw [tickPosition]
  cases hp : s.isPlaying <;> cases he : s.enabledForSong <;>
    simp [w1, w2, w3]

/-- Witness for C3, the spec's end-to-end scenario: base position
10000 ms, offset 5000 ms, playing, queried 1000 ms after the update: the
emitted position is 16000 ms, which decomposes as 0 h, 0 min, 16 s,
0 frames. -/
theorem C3_tick_position_witness :
    tickPosition
      { playPosition := 10000, songOffset := 5000, lastUpdate := 1000000,
        lastSentUpdate := 0, isPlaying := true, enabledForSong := true,
        messageIndex := 0 } 1001000 = 16000 ∧
    hoursOf 16000 = 0 ∧ minutesOf 16000 = 0 ∧ secondsOf 16000 = 16 ∧
    framesOf 16000 = 0 := by
  refine ⟨?_, by decide, by decide, by decide, by decide⟩
  have h := C3_tick_position
    { playPosition := 10000, songOffset := 5000, lastUpdate := 1000000,
      lastSentUpdate := 0, isPlaying := true, enabledForSong := true,
      messageIndex := 0 } 1001000 (by decide) (by decide) (by decide)
    (by decide)
  exact h.trans (by decide)

/-- Claim C7 (counterexample). The claim states the estimate is
non-decreasing in `now` while playing with no new update. The
`elapsed as i32` cast wraps, so one millisecond after `elapsed` reaches
`2^31` the estimate jumps from `2147483647` down to `-2147483648`. -/
theorem C7_claim_counterexample :
    ¬(estimatePosition 0 0 true 2147483647 ≤
        estimatePosition 0 0 true 2147483648) := by decide

/-- Claim C7 (amended). With the base position, `lastUpdateTimestampMs`
and `isPlaying = true` held fixed, the estimate is non-decreasing in `now`
as long as the elapsed time and the resulting sum stay inside the `i32`
range (no wrap); and for any `now < lastUpdateTimestampMs` the saturating
subtraction clamps the estimate to exactly the base position. -/
theorem C7_estimator_monotone (base : Int) (lastUpdate : Nat)
    (hb1 : -2147483648 ≤ base) (hb2 : base < 2147483648) :
    (∀ now1 now2 : Nat, now1 ≤ now2 →
      (now2 - lastUpdate : Nat) < 2147483648 →
      base + ((now2 - lastUpdate : Nat) : Int) < 2147483648 →
      estimatePosition base lastUpdate true now1 ≤
        estimatePosition base lastUpdate true now2) ∧
    (∀ now : Nat, now < lastUpdate →
      estimatePosition base lastUpdate true now = base) := by
  constructor
  · intro now1 now2 h12 helapsed hsum
    have e12 : (now1 - lastUpdate : Nat) ≤ (now2 - lastUpdate : Nat) :=
      Nat.sub_le_sub_right h12 _
    rw [estimatePosition, estimatePosition]
    have w1 : i32wrap ((now1 - lastUpdate : Nat) : Int) =
        ((now1 - lastUpdate : Nat) : Int) :=
      i32wrap_eq_self _ (by omega) (by omega)
    have w2 : i32wrap ((now2 - lastUpdate : Nat) : Int) =
        ((now2 - lastUpdate : Nat) : Int) :=
      i32wrap_eq_self _ (by omega) (by omega)
    have w3 : i32wrap (base + ((now1 - lastUpdate : Nat) : Int)) =
        base + ((now1 - lastUpdate : Nat) : Int) :=
      i32wrap_eq_self _ (by omega) (by omega)
    have w4 : i32wrap (base + ((now2 - lastUpdate : Nat) : Int)) =
        base + ((now2 - lastUpdate : Nat) : Int) :=
      i32wrap_eq_self _ (by omega) hsum
    simp only [if_true, w1, w2, w3, w4]
    omega
  · intro now hlt
    have hz : now - lastUpdate = 0 := Nat.sub_eq_zero_of_le (le_of_lt hlt)
    rw [estimatePosition]
    simp only [hz, Nat.cast_zero, if_true]
    rw [(by decide : i32wrap 0 = 0), add_zero]
    exact i32wrap_eq_self base hb1 hb2

/-- Witness for C7: with base 100 and last update at 50, the estimate at
queries 50 and 60 is non-decreasing (100 ≤ 110), and a query at 10
(before the update instant) is clamped to the base 100. -/
theorem C7_estimator_monotone_witness :
    estimatePosition 100 50 true 50 ≤ estimatePosition 100 50 true 60 ∧
    estimatePosition 100 50 true 10 = 100 := by
  have h := C7_estimator_monotone 100 50 (by decide) (by decide)
  exact ⟨h.1 50 60 (by decide) (by decide) (by decide), h.2 10 (by decide)⟩

/-- Claim C5: on every tick on which the sink accepts every message (and
with the cursor in its `0..8` invariant range), the tick completes, a
full-frame message is emitted iff `last_update ≠ last_sent_update`, the
successor state records `last_sent_update = last_update` (the update
timestamp itself is untouched, so no further full frame goes out until a
new timeline update changes it), a quarter-frame message is emitted iff
`is_playing && enabled_for_song` — in particular never while paused or
disabled — and the cursor always advances modulo 8. -/
theorem C5_tick_emissions (send : List Nat → Bool) (now : Nat)
    (s : LoopState) (hsend : ∀ m, send m = true)
    (hidx : s.messageIndex < 8) :
    ∃ fullMsg quarterMsg s2,
      emissionTick send now s = some (fullMsg, quarterMsg, s2) ∧
      (fullMsg.isSome = true ↔ s.lastUpdate ≠ s.lastSentUpdate) ∧
      s2.lastSentUpdate = s.lastUpdate ∧
      s2.lastUpdate = s.lastUpdate ∧
      (quarterMsg.isSome = true ↔ (s.isPlaying && s.enabledForSong) = true) ∧
      s2.messageIndex = (s.messageIndex + 1) % 8 := by
  have hqf : ∃ p, send_mtc_quarter_frame (tickPosition s now) s.messageIndex =
      some [0xF1, p] := by
    have hlen : (qfPayloads (tickPosition s now)).length = 8 := rfl
    have hilt : s.messageIndex < (qfPayloads (tickPosition s now)).length := by
      omega
    refine ⟨(qfPayloads (tickPosition s now)).get ⟨s.messageIndex, hilt⟩, ?_⟩
    rw [send_mtc_quarter_frame, List.get?_eq_get hilt]
    rfl
  obtain ⟨p, hp⟩ := hqf
  rw [emissionTick]
  by_cases hfull : s.lastUpdate = s.lastSentUpdate <;>
    by_cases hplay : (s.isPlaying && s.enabledForSong) = true <;>
      simp [hfull, hplay, hsend, hp] <;>
        exact ⟨_, _, _, ⟨rfl, rfl, rfl⟩, rfl, rfl, rfl, rfl, rfl⟩

/-- Witness for C5: a concrete tick with a fresh update, playing and
enabled, on an always-accepting sink. -/
theorem C5_tick_emissions_witness :
    ∃ fullMsg quarterMsg s2,
      emissionTick (fun _ => true) 7
          { playPosition := 0, songOffset := 0, lastUpdate := 5,
            lastSentUpdate := 0, isPlaying := true, enabledForSong := true,
            messageIndex := 3 } = some (fullMsg, quarterMsg, s2) ∧
      (fullMsg.isSome = true ↔ (5 : Nat) ≠ 0) ∧
      s2.lastSentUpdate = 5 ∧
      s2.lastUpdate = 5 ∧
      (quarterMsg.isSome = true ↔ (true && true) = true) ∧
      s2.messageIndex = (3 + 1) % 8 :=
  C5_tick_emissions (fun _ => true) 7
    { playPosition := 0, songOffset := 0, lastUpdate := 5,
      lastSentUpdate := 0, isPlaying := true, enabledForSong := true,
      messageIndex := 3 } (fun _ => rfl) (by decide)

/-- Claim C8: a rejected send is fatal. If on a tick the full-frame send
is attempted and the sink rejects it, or the full-frame step passes (not
needed, or accepted) and the attempted quarter-frame send is rejected,
the `unwrap` panics: the loop returns `none` no matter how many further
tick instants were scheduled — no further tick is executed. -/
theorem C8_send_failure_fatal (send : List Nat → Bool) (now : Nat)
    (rest : List Nat) (s : LoopState)
    (hfail :
      (s.lastUpdate ≠ s.lastSentUpdate ∧
        send (send_position (tickPosition s now)) = false) ∨
      ((s.lastUpdate = s.lastSentUpdate ∨
          send (send_position (tickPosition s now)) = true) ∧
        (s.isPlaying && s.enabledForSong) = true ∧
        ∀ m, send_mtc_quarter_frame (tickPosition s now) s.messageIndex =
          some m → send m = false)) :
    emissionLoop send (now :: rest) s = none := by
  have htick : emissionTick send now s = none := by
    rw [emissionTick]
    rcases hfail with ⟨hne, hrej⟩ | ⟨hok, hplay, hq⟩
    · simp [hne, hrej]
    · have hstep : s.lastUpdate = s.lastSentUpdate ∨
          (s.lastUpdate ≠ s.lastSentUpdate ∧
            send (send_position (tickPosition s now)) = true) := by
        by_cases heq2 : s.lastUpdate = s.lastSentUpdate
        · exact Or.inl heq2
        · rcases hok with heq | hacc
          · exact absurd heq heq2
          · exact Or.inr ⟨heq2, hacc⟩
      cases hm : send_mtc_quarter_frame (tickPosition s now) s.messageIndex with
      | none =>
        rcases hstep with heq2 | ⟨hne2, hacc⟩
        · simp [heq2, hplay, hm]
        · simp [hne2, hacc, hplay, hm]
      | some m =>
        rcases hstep with heq2 | ⟨hne2, hacc⟩
        · simp [heq2, hplay, hm, hq m hm]
        · simp [hne2, hacc, hplay, hm, hq m hm]
  rw [emissionLoop, htick]

/-- Witness for C8: a sink that rejects everything and a state with a
pending update kill the loop on the first of three scheduled ticks. -/
theorem C8_send_failure_fatal_witness :
    emissionLoop (fun _ => false) [0, 1, 2]
      { playPosition := 0, songOffset := 0, lastUpdate := 1,
        lastSentUpdate := 0, isPlaying := false, enabledForSong := false,
        messageIndex := 0 } = none :=
  C8_send_failure_fatal (fun _ => false) 0 [1, 2]
    { playPosition := 0, songOffset := 0, lastUpdate := 1,
      lastSentUpdate := 0, isPlaying := false, enabledForSong := false,
      messageIndex := 0 } (Or.inl ⟨by decide, rfl⟩)

end WMT
